import Mathlib

/-!
Shallow embedding of the townhall-panel document-lifecycle core
(src/app/api/v1/endpoints/documents.py, files.py, notifications.py and
src/app/db/repositories plus src/app/services/notification_service.py).

Conventions of the embedding:
* MongoDB ObjectIds are modelled as `Nat`; fresh ids for inserts come from
  an `AppState.nextId` counter.
* Timestamps (`datetime.now`) are modelled as a `Nat` parameter `now`.
* Collections are Lean lists in insertion order (Mongo natural order).
* A raising backend call is modelled by boolean failure-injection flags
  (`failDoc`, `failLedger`, `failNotif`): when a flag is set, the
  corresponding store call raises at the point the source performs it.
  An uncaught raise aborts the endpoint (`ApiError.internalError`) with
  all effects performed so far kept, exactly like a Python exception
  propagating out of an `await`.
* The opaque `metadata` bag, e-mail dispatch (fire-and-forget background
  tasks) and GridFS blob contents are outside the claims and are omitted;
  every field a claim touches is carried.
-/

namespace Townhall

/-- DocumentStatus enum (src/app/schemas/document.py). -/
inductive DocumentStatus : Type
  | draft
  | pending
  | in_progress
  | completed
  | archived
deriving DecidableEq, Repr

/-- UserRole enum (src/app/utils/constants.py). -/
inductive UserRole : Type
  | admin
  | department_head
  | employee
deriving DecidableEq, Repr

/-- DocumentAction enum (src/app/schemas/document_history.py). -/
inductive DocumentAction : Type
  | created
  | forwarded
  | viewed
  | responded
  | status_changed
  | modified
  | archived
  | file_added
  | file_removed
  | assigned
deriving DecidableEq, Repr

/-- NotificationType enum (src/app/utils/constants.py). -/
inductive NotificationType : Type
  | document_received
  | document_forwarded
  | response_received
  | status_changed
  | deadline_approaching
deriving DecidableEq, Repr

/-- A user record as consumed by the lifecycle core (directory lookup). -/
structure User where
  id : Nat
  full_name : String
  email : String
  department_id : Nat
  role : UserRole
  is_active : Bool
deriving DecidableEq, Repr

/-- A department record (directory lookup). -/
structure Department where
  id : Nat
  name : String
deriving DecidableEq, Repr

/-- FileInfo embedded in a document (src/app/schemas/document.py). -/
structure FileInfo where
  file_id : Nat
  filename : String
  content_type : String
  size : Nat
  uploaded_at : Nat
  uploaded_by : Nat
deriving DecidableEq, Repr

/-- A document record (documents collection). -/
structure Document where
  id : Nat
  document_number : String
  title : String
  description : String
  document_type : String
  priority : String
  status : DocumentStatus
  creator_id : Nat
  creator_department_id : Nat
  current_holder_department_id : Nat
  assigned_to_user_id : Option Nat
  archived_at : Option Nat
  files : List FileInfo
deriving DecidableEq, Repr

/-- A history (ledger) entry: the fields written by `create_audit_entry`
and the files endpoints (document_history collection). -/
structure HistoryEntry where
  document_id : Nat
  action : DocumentAction
  performed_by : Nat
  performed_by_name : String
  performed_by_department : Nat
  from_department_id : Option Nat
  to_department_id : Option Nat
  old_status : Option DocumentStatus
  new_status : Option DocumentStatus
  status_reason : Option String
  comment : Option String
  timestamp : Nat
deriving DecidableEq, Repr

/-- A notification record (notifications collection). -/
structure Notification where
  id : Nat
  user_id : Nat
  document_id : Nat
  ntype : NotificationType
  title : String
  message : String
  is_read : Bool
  email_sent : Bool
  read_at : Option Nat
  created_at : Nat
deriving DecidableEq, Repr

/-- The shared database state. -/
structure AppState where
  documents : List Document
  history : List HistoryEntry
  notifications : List Notification
  users : List User
  departments : List Department
  nextId : Nat
deriving DecidableEq, Repr

/-- Error kinds raised by the endpoints (HTTP 404 / 400 / 403 / 500). -/
inductive ApiError : Type
  | notFound
  | validationError
  | forbidden
  | internalError
deriving DecidableEq, Repr

/-! ### Generic store helpers (BaseRepository, src/app/db/repositories/base.py) -/

/-- `BaseRepository.find_many`: filter, then `skip`/`limit` the cursor.
The callers relevant here pass no sort, so Mongo natural (insertion)
order is kept.  The source defaults are `skip = 0`, `limit = 20`. -/
def find_many (filt : α → Bool) (skip limit : Nat) (coll : List α) : List α :=
  ((coll.filter filt).drop skip).take limit

/-- `find_one_and_update` on the first record matching `p`: the list with
the first match replaced by its update. -/
def replaceFirst (p : α → Bool) (f : α → α) : List α → List α
  | [] => []
  | x :: xs => if p x then f x :: xs else x :: replaceFirst p f xs

/-- `BaseRepository.find_by_id` on a collection of documents. -/
def Document.find_by_id (docs : List Document) (id : Nat) : Option Document :=
  docs.find? (fun d => d.id == id)

/-- `BaseRepository.find_by_id` on the users collection. -/
def User.find_by_id (users : List User) (id : Nat) : Option User :=
  users.find? (fun u => u.id == id)

/-- `BaseRepository.find_by_id` on the departments collection. -/
def Department.find_by_id (depts : List Department) (id : Nat) : Option Department :=
  depts.find? (fun d => d.id == id)

/-- `BaseRepository.find_by_id` on the notifications collection. -/
def Notification.find_by_id (ns : List Notification) (id : Nat) : Option Notification :=
  ns.find? (fun n => n.id == id)

/-- `UserRepository.find_by_department`: `find_many` with only a filter,
hence the source defaults `skip = 0`, `limit = 20` apply. -/
def UserRepository.find_by_department (users : List User) (department_id : Nat) : List User :=
  find_many (fun u => u.department_id == department_id) 0 20 users

/-! ### Document-number allocation (DocumentRepository.generate_document_number) -/

/-- `int(...)` on a decimal digit string. -/
def parseDigits (cs : List Char) : Nat :=
  cs.foldl (fun n c => n * 10 + (c.toNat - 48)) 0

/-- Fuel-driven helper for `str(n)`: decimal digits, most significant
first (structural recursion keeps it kernel-computable). -/
def natToDigitsAux : Nat → Nat → List Char
  | 0, _ => []
  | fuel + 1, n =>
      if n < 10 then [Char.ofNat (48 + n)]
      else natToDigitsAux fuel (n / 10) ++ [Char.ofNat (48 + n % 10)]

/-- `str(n)` for a natural number: decimal digits, most significant first. -/
def natToDigits (n : Nat) : List Char :=
  natToDigitsAux (n + 1) n

/-- The fuel is irrelevant as long as it exceeds the argument. -/
theorem natToDigitsAux_congr : ∀ (f1 f2 n : Nat), n < f1 → n < f2 →
    natToDigitsAux f1 n = natToDigitsAux f2 n := by
  intro f1
  induction f1 with
  | zero => intro f2 n h1 _; omega
  | succ f ih =>
    intro f2 n h1 h2
    cases f2 with
    | zero => omega
    | succ g =>
      simp only [natToDigitsAux]
      by_cases hn : n < 10
      · simp [hn]
      · rw [if_neg hn, if_neg hn, ih g (n / 10) (by omega) (by omega)]

/-- One-step unfolding of `natToDigits`. -/
theorem natToDigits_unfold (n : Nat) :
    natToDigits n = if n < 10 then [Char.ofNat (48 + n)]
      else natToDigits (n / 10) ++ [Char.ofNat (48 + n % 10)] := by
  show natToDigitsAux (n + 1) n = _
  by_cases hn : n < 10
  · simp [natToDigitsAux, hn]
  · simp only [natToDigitsAux, hn, if_false, Bool.false_eq_true]
    rw [natToDigitsAux_congr n (n / 10 + 1) (n / 10) (by omega) (by omega)]
    rfl

/-- Python `%0wd` formatting: left-pad the decimal digits with zeros to
width `w` (longer values are kept whole). -/
def padLeft (w : Nat) (n : Nat) : List Char :=
  List.replicate (w - (natToDigits n).length) '0' ++ natToDigits n

/-- Anchored-regex test `^DOC-<year>-` as a character-list match. -/
def listStartsWith : List Char → List Char → Bool
  | [], _ => true
  | _ :: _, [] => false
  | p :: ps, c :: cs => p == c && listStartsWith ps cs

/-- The characters of the current year's number tag `DOC-<year>-`. -/
def yearTag (year : Nat) : List Char :=
  "DOC-".toList ++ natToDigits year ++ "-".toList

/-- Mongo `$substr` at byte offset 10, length 5 (document numbers are
ASCII, so bytes coincide with characters); clipped at the end of the
string. -/
def substrTenFive (s : String) : List Char :=
  (s.toList.drop 10).take 5

/-- Mongo string comparison (code-point order, shorter run first). -/
def lexLt : List Char → List Char → Bool
  | [], [] => false
  | [], _ :: _ => true
  | _ :: _, [] => false
  | a :: as, b :: bs => if a = b then lexLt as bs else decide (a.toNat < b.toNat)

/-- `$sort` descending followed by `$limit 1`: the greatest element in
Mongo string order, `none` on an empty pipeline result. -/
def lexMaxOfList : List (List Char) → Option (List Char)
  | [] => none
  | c :: cs => some (cs.foldl (fun m x => if lexLt m x then x else m) c)

/-- `DocumentRepository.generate_document_number`
(src/app/db/repositories/document_repository.py, lines 15-55): match the
current year's tag, project `$substr(document_number, 10, 5)`, sort
descending, take the top value, parse it as an integer and add one
(1 when no document of the year exists), then format `DOC-YYYY-%05d`. -/
def generate_document_number (year : Nat) (docs : List Document) : String :=
  let tag := yearTag year
  let candidates :=
    (docs.filter (fun d => listStartsWith tag d.document_number.toList)).map
      (fun d => substrTenFive d.document_number)
  let next_number :=
    match lexMaxOfList candidates with
    | some top => parseDigits top + 1
    | none => 1
  String.mk (tag ++ padLeft 5 next_number)

/-- The trailing five characters of a document number. -/
def lastFive (cs : List Char) : List Char :=
  cs.drop (cs.length - 5)

/-- Greatest element of a list of naturals, `none` when empty. -/
def natMaxOfList : List Nat → Option Nat
  | [] => none
  | n :: ns => some (ns.foldl Nat.max n)

/-- Modelled from the spec: the allocation formula as §4.1/§8 word it —
scan the numbers with the current year's tag, parse the trailing 5-digit
segment as an integer, take the max, add one, zero-pad to 5 digits. -/
def spec_document_number (year : Nat) (docs : List Document) : String :=
  let tag := yearTag year
  let vals :=
    (docs.filter (fun d => listStartsWith tag d.document_number.toList)).map
      (fun d => parseDigits (lastFive d.document_number.toList))
  let next_number :=
    match natMaxOfList vals with
    | some m => m + 1
    | none => 1
  String.mk (tag ++ padLeft 5 next_number)

/-! ### Repository mutations (document_repository.py, notification_repository.py,
document_history_repository.py) -/

/-- `DocumentRepository.create_document` plus `BaseRepository.create`:
allocate the number, default status draft and empty file list, insert. -/
def DocumentRepository.create_document (year : Nat) (st : AppState)
    (title description document_type priority : String)
    (creator_id creator_department_id current_holder_department_id : Nat)
    (assigned_to_user_id : Option Nat) : Document × AppState :=
  let number := generate_document_number year st.documents
  let d : Document :=
    { id := st.nextId
      document_number := number
      title := title
      description := description
      document_type := document_type
      priority := priority
      status := DocumentStatus.draft
      creator_id := creator_id
      creator_department_id := creator_department_id
      current_holder_department_id := current_holder_department_id
      assigned_to_user_id := assigned_to_user_id
      archived_at := none
      files := [] }
  (d, { st with documents := st.documents ++ [d], nextId := st.nextId + 1 })

/-- `DocumentRepository.update_status`: `$set` of the status field only. -/
def DocumentRepository.update_status (docs : List Document) (document_id : Nat)
    (new_status : DocumentStatus) : Option Document × List Document :=
  let f := fun d => { d with status := new_status }
  ((Document.find_by_id docs document_id).map f,
    replaceFirst (fun d => d.id == document_id) f docs)

/-- `DocumentRepository.forward_document`: `$set` of holder department and
assignee (the assignee is overwritten with the given value, cleared when
absent). -/
def DocumentRepository.forward_document (docs : List Document) (document_id : Nat)
    (to_department_id : Nat) (assigned_to_user_id : Option Nat) :
    Option Document × List Document :=
  let f := fun d => { d with
    current_holder_department_id := to_department_id
    assigned_to_user_id := assigned_to_user_id }
  ((Document.find_by_id docs document_id).map f,
    replaceFirst (fun d => d.id == document_id) f docs)

/-- `DocumentRepository.archive_document`: `$set` status archived and stamp
`archived_at`. -/
def DocumentRepository.archive_document (now : Nat) (docs : List Document)
    (document_id : Nat) : Option Document × List Document :=
  let f := fun d => { d with
    status := DocumentStatus.archived
    archived_at := some now }
  ((Document.find_by_id docs document_id).map f,
    replaceFirst (fun d => d.id == document_id) f docs)

/-- `DocumentRepository.add_file`: `$push` onto the file list. -/
def DocumentRepository.add_file (docs : List Document) (document_id : Nat)
    (fi : FileInfo) : List Document :=
  replaceFirst (fun d => d.id == document_id)
    (fun d => { d with files := d.files ++ [fi] }) docs

/-- `DocumentRepository.remove_file`: `$pull` of the matching file id. -/
def DocumentRepository.remove_file (docs : List Document) (document_id : Nat)
    (file_id : Nat) : List Document :=
  replaceFirst (fun d => d.id == document_id)
    (fun d => { d with files := d.files.filter (fun fi => !(fi.file_id == file_id)) }) docs

/-- `create_audit_entry` (documents.py lines 58-76) together with
`DocumentHistoryRepository.create_history_entry`, which stamps the
timestamp; the keyword bag is carried in the optional fields. -/
def create_audit_entry (now : Nat) (st : AppState) (document_id : Nat)
    (action : DocumentAction) (user : User)
    (from_department_id to_department_id : Option Nat)
    (old_status new_status : Option DocumentStatus)
    (status_reason comment : Option String) : AppState :=
  { st with history := st.history ++
      [{ document_id := document_id
         action := action
         performed_by := user.id
         performed_by_name := user.full_name
         performed_by_department := user.department_id
         from_department_id := from_department_id
         to_department_id := to_department_id
         old_status := old_status
         new_status := new_status
         status_reason := status_reason
         comment := comment
         timestamp := now }] }

/-- `NotificationRepository.mark_as_read`: `update_by_id` with
`is_read := true` and `read_at := now`, with no precondition on the
current read flag; returns the updated record. -/
def NotificationRepository.mark_as_read (now : Nat) (ns : List Notification)
    (notification_id : Nat) : Option Notification × List Notification :=
  let f := fun n => { n with is_read := true, read_at := some now }
  ((Notification.find_by_id ns notification_id).map f,
    replaceFirst (fun n => n.id == notification_id) f ns)

/-- `NotificationRepository.mark_all_as_read`: `update_many` over the
user's unread notifications, returning Mongo's modified count. -/
def NotificationRepository.mark_all_as_read (now : Nat) (ns : List Notification)
    (user_id : Nat) : Nat × List Notification :=
  let p := fun (n : Notification) => n.user_id == user_id && n.is_read == false
  ((ns.filter p).length,
    ns.map (fun n => if p n then { n with is_read := true, read_at := some now } else n))

/-! ### Notification fan-out (src/app/services/notification_service.py)

Every `create_notification` call in the service sits inside a
`try/except` that swallows the failure and logs it, so an injected
notification-store failure (`failNotif = true`) skips that record without
aborting the caller. -/

/-- `NotificationService.create_notification` plus `BaseRepository.create`. -/
def create_notification (now : Nat) (st : AppState) (user_id document_id : Nat)
    (ntype : NotificationType) (title message : String) : Notification × AppState :=
  let n : Notification :=
    { id := st.nextId
      user_id := user_id
      document_id := document_id
      ntype := ntype
      title := title
      message := message
      is_read := false
      email_sent := false
      read_at := none
      created_at := now }
  (n, { st with notifications := st.notifications ++ [n], nextId := st.nextId + 1 })

/-- `NotificationService.notify_document_created`: one notification to the
assigned user when one is given, none otherwise. -/
def notify_document_created (now : Nat) (failNotif : Bool) (st : AppState)
    (document : Document) (assigned_user_id : Option Nat) :
    List Notification × AppState :=
  match assigned_user_id with
  | none => ([], st)
  | some uid =>
      if failNotif then ([], st)
      else
        let r := create_notification now st uid document.id
          NotificationType.document_received
          ("New Document Assigned: " ++ document.document_number)
          ("You have been assigned document " ++ document.title ++
            " (" ++ document.document_number ++ ")")
        ([r.1], r.2)

/-- The per-user loop of `notify_document_forwarded`: one notification
per user whose `is_active` flag is set (the source reads
`user.get("is_active", True)`); a store failure is swallowed per user. -/
def forwarded_fanout (now : Nat) (failNotif : Bool) (document : Document)
    (to_department_id : Nat) (dept_name forwarded_by_name : String) :
    List User → List Notification × AppState → List Notification × AppState
  | [], acc => acc
  | u :: us, acc =>
      forwarded_fanout now failNotif document to_department_id dept_name
        forwarded_by_name us
        (if u.is_active then
          if failNotif then acc
          else
            let r := create_notification now acc.2 u.id document.id
              NotificationType.document_forwarded
              ("Document Forwarded to " ++ dept_name ++ ": " ++ document.document_number)
              (document.title ++ " has been forwarded to your department by " ++
                forwarded_by_name)
            (acc.1 ++ [r.1], r.2)
        else acc)

/-- `NotificationService.notify_document_forwarded`: the named assignee
when present, otherwise one notification per user of the target
department (as returned by `UserRepository.find_by_department`) whose
`is_active` flag is set. -/
def notify_document_forwarded (now : Nat) (failNotif : Bool) (st : AppState)
    (document : Document) (from_department_id to_department_id : Nat)
    (assigned_user_id : Option Nat) (forwarded_by_name : String) :
    List Notification × AppState :=
  let dept_name :=
    match Department.find_by_id st.departments to_department_id with
    | some dep => dep.name
    | none => "Unknown Department"
  match assigned_user_id with
  | some uid =>
      if failNotif then ([], st)
      else
        let r := create_notification now st uid document.id
          NotificationType.document_forwarded
          ("Document Forwarded to You: " ++ document.document_number)
          (document.title ++ " has been forwarded to you by " ++ forwarded_by_name)
        ([r.1], r.2)
  | none =>
      let users := UserRepository.find_by_department st.users to_department_id
      forwarded_fanout now failNotif document to_department_id dept_name
        forwarded_by_name users ([], st)

/-- `NotificationService.notify_status_changed`: the creator always, the
assigned user additionally when distinct from the creator. -/
def notify_status_changed (now : Nat) (failNotif : Bool) (st : AppState)
    (document : Document) (old_status new_status : DocumentStatus)
    (changed_by_name : String) : List Notification × AppState :=
  let title := "Status Changed: " ++ document.document_number
  let message := "Document " ++ document.title ++ " status changed by " ++ changed_by_name
  let r1 :=
    if failNotif then ([], st)
    else
      let r := create_notification now st document.creator_id document.id
        NotificationType.status_changed title message
      ([r.1], r.2)
  match document.assigned_to_user_id with
  | some uid =>
      if uid ≠ document.creator_id then
        if failNotif then r1
        else
          let r2 := create_notification now r1.2 uid document.id
            NotificationType.status_changed title message
          (r1.1 ++ [r2.1], r2.2)
      else r1
  | none => r1

/-- `NotificationService.notify_document_assigned`: one notification to
the new assignee; `none` when the store call failed (swallowed). -/
def notify_document_assigned (now : Nat) (failNotif : Bool) (st : AppState)
    (document : Document) (new_assignee_id : Nat) (assigned_by_name : String) :
    Option Notification × AppState :=
  if failNotif then (none, st)
  else
    let r := create_notification now st new_assignee_id document.id
      NotificationType.document_received
      ("Document Assigned to You: " ++ document.document_number)
      ("You have been assigned document " ++ document.title ++ " by " ++ assigned_by_name)
    (some r.1, r.2)

/-! ### Endpoints (src/app/api/v1/endpoints/documents.py, files.py,
notifications.py) -/

/-- Which of the three write phases of a transition were reached:
document-store mutation, ledger append, notification fan-out. -/
structure StepTrace where
  doc_attempted : Bool
  ledger_attempted : Bool
  notif_attempted : Bool
deriving DecidableEq, Repr

/-- Result of one endpoint call: HTTP outcome, the database state after
it (partial effects of an aborted call are kept, as in the source), and
the phases reached. -/
structure Outcome (α : Type) where
  result : Except ApiError α
  state : AppState
  trace : StepTrace

/-- Request body of POST /documents (schema DocumentCreate). -/
structure DocumentCreate where
  title : String
  description : String
  document_type : String
  priority : String
  assigned_to_user_id : Option Nat
deriving DecidableEq, Repr

/-- Request body of POST /documents/id/forward (schema DocumentForward). -/
structure DocumentForward where
  to_department_id : Nat
  assigned_to_user_id : Option Nat
  comment : Option String
deriving DecidableEq, Repr

/-- Request body of PUT /documents/id/status (schema DocumentStatusUpdate). -/
structure DocumentStatusUpdate where
  status : DocumentStatus
  reason : Option String
deriving DecidableEq, Repr

/-- Request body of PUT /documents/id (schema DocumentUpdate; the opaque
metadata bag is omitted). -/
structure DocumentUpdate where
  title : Option String
  description : Option String
  document_type : Option String
  priority : Option String
  status : Option DocumentStatus
  assigned_to_user_id : Option Nat
deriving DecidableEq, Repr

/-- The view permission of GET /documents/id (admin, creator, or own
department is the creator or holder department). -/
def can_view (current_user : User) (document : Document) : Bool :=
  decide (current_user.role = UserRole.admin) ||
  decide (document.creator_id = current_user.id) ||
  decide (current_user.department_id = document.creator_department_id) ||
  decide (current_user.department_id = document.current_holder_department_id)

/-- The forward permission: admin, or department head of the holder
department, or the currently assigned user. -/
def can_forward (current_user : User) (document : Document) : Bool :=
  decide (current_user.role = UserRole.admin) ||
  (decide (current_user.role = UserRole.department_head) &&
    decide (document.current_holder_department_id = current_user.department_id)) ||
  decide (document.assigned_to_user_id = some current_user.id)

/-- The status-change permission (same formula as forwarding, re-derived
inline in the source). -/
def can_update_status (current_user : User) (document : Document) : Bool :=
  decide (current_user.role = UserRole.admin) ||
  (decide (current_user.role = UserRole.department_head) &&
    decide (document.current_holder_department_id = current_user.department_id)) ||
  decide (document.assigned_to_user_id = some current_user.id)

/-- The update (modify) permission: admin, creator, or department head of
the holder department. -/
def can_update (current_user : User) (document : Document) : Bool :=
  decide (current_user.role = UserRole.admin) ||
  decide (document.creator_id = current_user.id) ||
  (decide (current_user.role = UserRole.department_head) &&
    decide (document.current_holder_department_id = current_user.department_id))

/-- The file-removal permission (same formula as modify, re-derived
inline in files.py). -/
def can_delete_file (current_user : User) (document : Document) : Bool :=
  decide (current_user.role = UserRole.admin) ||
  decide (document.creator_id = current_user.id) ||
  (decide (current_user.role = UserRole.department_head) &&
    decide (document.current_holder_department_id = current_user.department_id))

/-- The archive permission: admin or creator only. -/
def can_archive (current_user : User) (document : Document) : Bool :=
  decide (current_user.role = UserRole.admin) ||
  decide (document.creator_id = current_user.id)

/-- POST /documents (documents.py lines 92-167): validate the optional
assignee (404 when it does not resolve), insert the document, write the
`created` ledger entry, then notify the assignee when one was given. -/
def create_document_endpoint (now year : Nat) (current_user : User)
    (document_data : DocumentCreate) (failDoc failLedger failNotif : Bool)
    (st : AppState) : Outcome Document :=
  let assigneeMissing :=
    match document_data.assigned_to_user_id with
    | some uid => (User.find_by_id st.users uid).isNone
    | none => false
  if assigneeMissing then ⟨.error .notFound, st, ⟨false, false, false⟩⟩
  else if failDoc then ⟨.error .internalError, st, ⟨true, false, false⟩⟩
  else
    let rc := DocumentRepository.create_document year st
      document_data.title document_data.description document_data.document_type
      document_data.priority current_user.id current_user.department_id
      current_user.department_id document_data.assigned_to_user_id
    let created_document := rc.1
    if failLedger then ⟨.error .internalError, rc.2, ⟨true, true, false⟩⟩
    else
      let st2 := create_audit_entry now rc.2 created_document.id .created current_user
        none none none none none (some ("Document created: " ++ document_data.title))
      match document_data.assigned_to_user_id with
      | some _ =>
          ⟨.ok created_document,
            (notify_document_created now failNotif st2 created_document
              document_data.assigned_to_user_id).2, ⟨true, true, true⟩⟩
      | none => ⟨.ok created_document, st2, ⟨true, true, false⟩⟩

/-- GET /documents/id (documents.py lines 271-313): permission-gated
read that writes a `viewed` ledger entry on every successful read and
never touches documents or notifications. -/
def get_document_endpoint (now : Nat) (current_user : User) (document_id : Nat)
    (st : AppState) : Outcome Document :=
  match Document.find_by_id st.documents document_id with
  | none => ⟨.error .notFound, st, ⟨false, false, false⟩⟩
  | some document =>
      if can_view current_user document then
        ⟨.ok document,
          create_audit_entry now st document_id .viewed current_user
            none none none none none none,
          ⟨false, true, false⟩⟩
      else ⟨.error .forbidden, st, ⟨false, false, false⟩⟩

/-- POST /documents/id/forward (documents.py lines 458-564): document
and target department must resolve (404), a supplied assignee must
resolve (404) and belong to the target department (400), the actor must
pass `can_forward` (403); then mutate, append the `forwarded` entry, and
fan out notifications. -/
def forward_document_endpoint (now : Nat) (current_user : User) (document_id : Nat)
    (forward_data : DocumentForward) (failDoc failLedger failNotif : Bool)
    (st : AppState) : Outcome Document :=
  match Document.find_by_id st.documents document_id with
  | none => ⟨.error .notFound, st, ⟨false, false, false⟩⟩
  | some document =>
    match Department.find_by_id st.departments forward_data.to_department_id with
    | none => ⟨.error .notFound, st, ⟨false, false, false⟩⟩
    | some _ =>
      let assigneeCheck : Option ApiError :=
        match forward_data.assigned_to_user_id with
        | none => none
        | some uid =>
          match User.find_by_id st.users uid with
          | none => some .notFound
          | some assigned_user =>
            if assigned_user.department_id ≠ forward_data.to_department_id
            then some .validationError else none
      match assigneeCheck with
      | some e => ⟨.error e, st, ⟨false, false, false⟩⟩
      | none =>
        if can_forward current_user document then
          let from_department_id := document.current_holder_department_id
          if failDoc then ⟨.error .internalError, st, ⟨true, false, false⟩⟩
          else
            let ru := DocumentRepository.forward_document st.documents
              document_id forward_data.to_department_id forward_data.assigned_to_user_id
            let st1 := { st with documents := ru.2 }
            if failLedger then ⟨.error .internalError, st1, ⟨true, true, false⟩⟩
            else
              let st2 := create_audit_entry now st1 document_id .forwarded current_user
                (some from_department_id) (some forward_data.to_department_id)
                none none none forward_data.comment
              match ru.1 with
              | some updated_document =>
                  ⟨.ok updated_document,
                    (notify_document_forwarded now failNotif st2
                      updated_document from_department_id forward_data.to_department_id
                      forward_data.assigned_to_user_id current_user.full_name).2,
                    ⟨true, true, true⟩⟩
              | none => ⟨.error .internalError, st2, ⟨true, true, true⟩⟩
        else ⟨.error .forbidden, st, ⟨false, false, false⟩⟩

/-- PUT /documents/id/status (documents.py lines 579-659): accepts any
DocumentStatus value (including archived); `update_status` sets only the
status field, then the `status_changed` ledger entry and the creator /
assignee notifications follow. -/
def update_document_status_endpoint (now : Nat) (current_user : User)
    (document_id : Nat) (status_data : DocumentStatusUpdate)
    (failDoc failLedger failNotif : Bool) (st : AppState) : Outcome Document :=
  match Document.find_by_id st.documents document_id with
  | none => ⟨.error .notFound, st, ⟨false, false, false⟩⟩
  | some document =>
    if can_update_status current_user document then
      let old_status := document.status
      if failDoc then ⟨.error .internalError, st, ⟨true, false, false⟩⟩
      else
        let ru := DocumentRepository.update_status st.documents
          document_id status_data.status
        let st1 := { st with documents := ru.2 }
        if failLedger then ⟨.error .internalError, st1, ⟨true, true, false⟩⟩
        else
          let st2 := create_audit_entry now st1 document_id .status_changed current_user
            none none (some old_status) (some status_data.status) status_data.reason none
          match ru.1 with
          | some updated_document =>
              ⟨.ok updated_document,
                (notify_status_changed now failNotif st2 updated_document
                  old_status status_data.status current_user.full_name).2,
                ⟨true, true, true⟩⟩
          | none => ⟨.error .internalError, st2, ⟨true, true, true⟩⟩
    else ⟨.error .forbidden, st, ⟨false, false, false⟩⟩

/-- DELETE /documents/id (documents.py lines 730-773): admin or creator
only; archives (status plus archived_at), writes the `archived` ledger
entry, and — unlike every other transition — calls no notification
service at all. -/
def archive_document_endpoint (now : Nat) (current_user : User) (document_id : Nat)
    (failDoc failLedger : Bool) (st : AppState) : Outcome Unit :=
  match Document.find_by_id st.documents document_id with
  | none => ⟨.error .notFound, st, ⟨false, false, false⟩⟩
  | some document =>
    if can_archive current_user document then
      if failDoc then ⟨.error .internalError, st, ⟨true, false, false⟩⟩
      else
        let st1 := { st with
          documents := (DocumentRepository.archive_document now st.documents document_id).2 }
        if failLedger then ⟨.error .internalError, st1, ⟨true, true, false⟩⟩
        else
          ⟨.ok (),
            create_audit_entry now st1 document_id .archived current_user
              none none none none none (some "Document archived"),
            ⟨true, true, false⟩⟩
    else ⟨.error .forbidden, st, ⟨false, false, false⟩⟩

/-- The `$set` dict collected by PUT /documents/id applied to a record. -/
def applyDocumentUpdate (document_data : DocumentUpdate) (d : Document) : Document :=
  { d with
    title := document_data.title.getD d.title
    description := document_data.description.getD d.description
    document_type := document_data.document_type.getD d.document_type
    priority := document_data.priority.getD d.priority
    status := document_data.status.getD d.status
    assigned_to_user_id :=
      match document_data.assigned_to_user_id with
      | some uid => some uid
      | none => d.assigned_to_user_id }

/-- PUT /documents/id (documents.py lines 329-442): permission check, a
supplied assignee must resolve (404), partial update via `update_by_id`,
a `modified` ledger entry, and an `assigned` notification when the
assignee changed. -/
def update_document_endpoint (now : Nat) (current_user : User) (document_id : Nat)
    (document_data : DocumentUpdate) (failDoc failLedger failNotif : Bool)
    (st : AppState) : Outcome Document :=
  match Document.find_by_id st.documents document_id with
  | none => ⟨.error .notFound, st, ⟨false, false, false⟩⟩
  | some existing_doc =>
    if can_update current_user existing_doc then
      let assigneeMissing :=
        match document_data.assigned_to_user_id with
        | some uid => (User.find_by_id st.users uid).isNone
        | none => false
      if assigneeMissing then ⟨.error .notFound, st, ⟨false, false, false⟩⟩
      else
        let old_assignee := existing_doc.assigned_to_user_id
        if failDoc then ⟨.error .internalError, st, ⟨true, false, false⟩⟩
        else
          let f := applyDocumentUpdate document_data
          let updOpt := (Document.find_by_id st.documents document_id).map f
          let st1 := { st with
            documents := replaceFirst (fun d => d.id == document_id) f st.documents }
          match updOpt with
          | none => ⟨.error .notFound, st1, ⟨true, false, false⟩⟩
          | some updated_document =>
            if failLedger then ⟨.error .internalError, st1, ⟨true, true, false⟩⟩
            else
              let st2 := create_audit_entry now st1 document_id .modified current_user
                none none none none none (some "Document updated")
              match document_data.assigned_to_user_id with
              | some new_assignee =>
                if old_assignee ≠ some new_assignee then
                  ⟨.ok updated_document,
                    (notify_document_assigned now failNotif st2
                      updated_document new_assignee current_user.full_name).2,
                    ⟨true, true, true⟩⟩
                else ⟨.ok updated_document, st2, ⟨true, true, false⟩⟩
              | none => ⟨.ok updated_document, st2, ⟨true, true, false⟩⟩
    else ⟨.error .forbidden, st, ⟨false, false, false⟩⟩

/-- Maximum upload size (files.py). -/
def MAX_FILE_SIZE : Nat := 50 * 1024 * 1024

/-- Allowed MIME types (files.py). -/
def ALLOWED_MIME_TYPES : List String :=
  ["application/pdf",
   "application/msword",
   "application/vnd.openxmlformats-officedocument.wordprocessingml.document",
   "application/vnd.ms-excel",
   "application/vnd.openxmlformats-officedocument.spreadsheetml.sheet",
   "image/jpeg",
   "image/png",
   "image/gif",
   "text/plain",
   "application/zip"]

/-- POST /files/upload/document_id (files.py lines 47-155): view
permission, size and MIME gates, GridFS upload (opaque, producing
`file_id`), `add_file` mutation, then the `file_added` ledger entry; no
notification. -/
def upload_file_endpoint (now : Nat) (current_user : User) (document_id : Nat)
    (filename content_type : String) (file_size file_id : Nat)
    (failDoc failLedger : Bool) (st : AppState) : Outcome FileInfo :=
  match Document.find_by_id st.documents document_id with
  | none => ⟨.error .notFound, st, ⟨false, false, false⟩⟩
  | some document =>
    if can_view current_user document then
      if file_size > MAX_FILE_SIZE then ⟨.error .validationError, st, ⟨false, false, false⟩⟩
      else if ALLOWED_MIME_TYPES.contains content_type then
        let fi : FileInfo :=
          { file_id := file_id
            filename := filename
            content_type := content_type
            size := file_size
            uploaded_at := now
            uploaded_by := current_user.id }
        if failDoc then ⟨.error .internalError, st, ⟨true, false, false⟩⟩
        else
          let st1 := { st with
            documents := DocumentRepository.add_file st.documents document_id fi }
          if failLedger then ⟨.error .internalError, st1, ⟨true, true, false⟩⟩
          else
            ⟨.ok fi,
              create_audit_entry now st1 document_id .file_added current_user
                none none none none none (some ("File uploaded: " ++ filename)),
              ⟨true, true, false⟩⟩
      else ⟨.error .validationError, st, ⟨false, false, false⟩⟩
    else ⟨.error .forbidden, st, ⟨false, false, false⟩⟩

/-- DELETE /files/document_id/file_id (files.py lines 269-342): document
and listed file must exist (404), `can_delete_file` gate (403),
`remove_file` mutation, GridFS delete (opaque), then the `file_removed`
ledger entry; no notification. -/
def delete_file_endpoint (now : Nat) (current_user : User)
    (document_id file_id : Nat) (failDoc failLedger : Bool)
    (st : AppState) : Outcome Unit :=
  match Document.find_by_id st.documents document_id with
  | none => ⟨.error .notFound, st, ⟨false, false, false⟩⟩
  | some document =>
    match document.files.find? (fun fi => fi.file_id == file_id) with
    | none => ⟨.error .notFound, st, ⟨false, false, false⟩⟩
    | some fi =>
      if can_delete_file current_user document then
        if failDoc then ⟨.error .internalError, st, ⟨true, false, false⟩⟩
        else
          let st1 := { st with
            documents := DocumentRepository.remove_file st.documents document_id file_id }
          if failLedger then ⟨.error .internalError, st1, ⟨true, true, false⟩⟩
          else
            ⟨.ok (),
              create_audit_entry now st1 document_id .file_removed current_user
                none none none none none (some ("File deleted: " ++ fi.filename)),
              ⟨true, true, false⟩⟩
      else ⟨.error .forbidden, st, ⟨false, false, false⟩⟩

/-- PUT /notifications/notification_id/read (notifications.py lines
98-133): existence (404) and ownership (403) checks, then
`mark_as_read`, which overwrites the read flag and timestamp with no
check of the current read state. -/
def mark_notification_read_endpoint (now : Nat) (current_user : User)
    (notification_id : Nat) (st : AppState) :
    Except ApiError Notification × AppState :=
  match Notification.find_by_id st.notifications notification_id with
  | none => (.error .notFound, st)
  | some n =>
    if n.user_id ≠ current_user.id then (.error .forbidden, st)
    else
      let ru := NotificationRepository.mark_as_read now st.notifications
        notification_id
      match ru.1 with
      | none => (.error .notFound, { st with notifications := ru.2 })
      | some updated => (.ok updated, { st with notifications := ru.2 })

/-- PUT /notifications/read-all (notifications.py lines 145-158):
`mark_all_as_read` for the current user, returning the affected count. -/
def mark_all_read_endpoint (now : Nat) (current_user : User) (st : AppState) :
    Nat × AppState :=
  let r := NotificationRepository.mark_all_as_read now st.notifications
    current_user.id
  (r.1, { st with notifications := r.2 })

/-- One lifecycle transition request (the operations of §4.1 other than
the side-effect-only view). -/
inductive TransitionRequest : Type
  | createDoc (data : DocumentCreate)
  | forward (document_id : Nat) (data : DocumentForward)
  | changeStatus (document_id : Nat) (data : DocumentStatusUpdate)
  | archiveDoc (document_id : Nat)
  | modify (document_id : Nat) (data : DocumentUpdate)
  | addFile (document_id : Nat) (filename content_type : String) (file_size file_id : Nat)
  | removeFile (document_id file_id : Nat)

/-- Dispatch of a transition request to its endpoint, keeping the final
state and the phase trace. -/
def run_transition (now year : Nat) (current_user : User) (req : TransitionRequest)
    (failDoc failLedger failNotif : Bool) (st : AppState) : AppState × StepTrace :=
  match req with
  | .createDoc data =>
      let o := create_document_endpoint now year current_user data
        failDoc failLedger failNotif st
      (o.state, o.trace)
  | .forward document_id data =>
      let o := forward_document_endpoint now current_user document_id data
        failDoc failLedger failNotif st
      (o.state, o.trace)
  | .changeStatus document_id data =>
      let o := update_document_status_endpoint now current_user document_id data
        failDoc failLedger failNotif st
      (o.state, o.trace)
  | .archiveDoc document_id =>
      let o := archive_document_endpoint now current_user document_id
        failDoc failLedger st
      (o.state, o.trace)
  | .modify document_id data =>
      let o := update_document_endpoint now current_user document_id data
        failDoc failLedger failNotif st
      (o.state, o.trace)
  | .addFile document_id filename content_type file_size file_id =>
      let o := upload_file_endpoint now current_user document_id filename content_type
        file_size file_id failDoc failLedger st
      (o.state, o.trace)
  | .removeFile document_id file_id =>
      let o := delete_file_endpoint now current_user document_id file_id
        failDoc failLedger st
      (o.state, o.trace)

/-! ### Decidability of endpoint results -/

instance {ε α : Type} [DecidableEq ε] [DecidableEq α] : DecidableEq (Except ε α) := by
  intro a b
  cases a <;> cases b
  case error.error e f => exact decidable_of_iff (e = f) (by simp)
  case ok.ok x y => exact decidable_of_iff (x = y) (by simp)
  all_goals exact isFalse (by intro h; cases h)

/-! ### Concrete fixtures used by witnesses and counterexamples -/

/-- Department 1. -/
def deptA : Department := { id := 1, name := "A" }

/-- Department 2. -/
def deptB : Department := { id := 2, name := "B" }

/-- An administrator in department 1. -/
def alice : User :=
  { id := 100, full_name := "Alice", email := "a@x", department_id := 1,
    role := UserRole.admin, is_active := true }

/-- An employee in department 2. -/
def bob : User :=
  { id := 101, full_name := "Bob", email := "b@x", department_id := 2,
    role := UserRole.employee, is_active := true }

/-- An employee in department 1. -/
def carol : User :=
  { id := 102, full_name := "Carol", email := "c@x", department_id := 1,
    role := UserRole.employee, is_active := true }

/-- A draft document created by Alice, held by department 1. -/
def doc0 : Document :=
  { id := 10, document_number := "DOC-2025-00001", title := "T", description := "D",
    document_type := "memo", priority := "low", status := DocumentStatus.draft,
    creator_id := 100, creator_department_id := 1, current_holder_department_id := 1,
    assigned_to_user_id := none, archived_at := none, files := [] }

/-- Base state: one document, three users, two departments. -/
def st0 : AppState :=
  { documents := [doc0], history := [], notifications := [],
    users := [alice, bob, carol], departments := [deptA, deptB], nextId := 1000 }

/-- Twenty-one active users in department 2. -/
def bigUsers : List User :=
  (List.range 21).map (fun i =>
    { id := 200 + i, full_name := "U", email := "u@x", department_id := 2,
      role := UserRole.employee, is_active := true })

/-- State whose target department has 21 active users. -/
def stBig : AppState :=
  { documents := [doc0], history := [], notifications := [],
    users := alice :: bigUsers, departments := [deptA, deptB], nextId := 1000 }

/-- A notification of Bob that is already read. -/
def notifRead : Notification :=
  { id := 500, user_id := 101, document_id := 10, ntype := NotificationType.status_changed,
    title := "t", message := "m", is_read := true, email_sent := false,
    read_at := some 5, created_at := 1 }

/-- An unread notification of Carol. -/
def notifOtherUnread : Notification :=
  { id := 501, user_id := 102, document_id := 10, ntype := NotificationType.status_changed,
    title := "t", message := "m", is_read := false, email_sent := false,
    read_at := none, created_at := 1 }

/-- State with one read and one unread notification. -/
def stN : AppState :=
  { documents := [doc0], history := [], notifications := [notifRead, notifOtherUnread],
    users := [alice, bob, carol], departments := [deptA, deptB], nextId := 1000 }

/-! ### Helper lemmas about the store primitives -/

/-- A conditional rewrite that touches no element is the identity. -/
theorem map_ite_of_filter_nil {α : Type} (p : α → Bool) (f : α → α) (l : List α)
    (h : l.filter p = []) :
    l.map (fun x => if p x then f x else x) = l := by
  induction l with
  | nil => simp
  | cons a as ih =>
    rw [List.filter_cons] at h
    by_cases hp : p a = true
    · rw [if_pos hp] at h; cases h
    · rw [if_neg hp] at h
      rw [List.map_cons, if_neg hp, ih h]

/-- `find?` after `replaceFirst` when the update preserves matching. -/
theorem find?_replaceFirst_pres {α : Type} (p : α → Bool) (f : α → α)
    (hpres : ∀ x, p (f x) = p x) (l : List α) :
    (replaceFirst p f l).find? p = (l.find? p).map f := by
  induction l with
  | nil => simp [replaceFirst]
  | cons a as ih =>
    by_cases hp : p a = true
    · rw [replaceFirst, if_pos hp, List.find?_cons_of_pos _ (by rw [hpres]; exact hp),
        List.find?_cons_of_pos _ hp, Option.map_some']
    · rw [replaceFirst, if_neg hp, List.find?_cons_of_neg _ hp, List.find?_cons_of_neg _ hp, ih]

/-- `find?` through a `map` whose function preserves the searched field. -/
theorem find?_map_pres {α : Type} (p : α → Bool) (f : α → α)
    (hpres : ∀ x, p (f x) = p x) (l : List α) :
    (l.map f).find? p = (l.find? p).map f := by
  induction l with
  | nil => simp
  | cons a as ih =>
    by_cases hp : p a = true
    · rw [List.map_cons, List.find?_cons_of_pos _ (by rw [hpres]; exact hp),
        List.find?_cons_of_pos _ hp, Option.map_some']
    · rw [List.map_cons, List.find?_cons_of_neg _ (by rw [hpres]; exact hp),
        List.find?_cons_of_neg _ hp, ih]

/-! ### Claim C9 -/

/-- C9: for a user with zero unread notifications, the
mark-all-notifications-read operation returns an affected count of zero
and returns the state completely unchanged — in particular every prior
read_at timestamp is preserved (the operation is idempotent). -/
theorem claim_C9_mark_all_read_zero_unread (now : Nat) (current_user : User) (st : AppState)
    (h : (st.notifications.filter
      (fun n => n.user_id == current_user.id && n.is_read == false)).length = 0) :
    (mark_all_read_endpoint now current_user st).1 = 0 ∧
    (mark_all_read_endpoint now current_user st).2 = st := by
  have hnil : st.notifications.filter
      (fun n => n.user_id == current_user.id && n.is_read == false) = [] :=
    List.length_eq_zero.mp h
  refine ⟨?_, ?_⟩
  · simp only [mark_all_read_endpoint, NotificationRepository.mark_all_as_read]
    exact h
  · simp only [mark_all_read_endpoint, NotificationRepository.mark_all_as_read]
    rw [map_ite_of_filter_nil _ _ _ hnil]

/-- C9 witness: Bob has no unread notification in `stN`, so the bulk
mark-read affects zero records and leaves the state unchanged. -/
theorem claim_C9_witness :
    (mark_all_read_endpoint 7 bob stN).1 = 0 ∧ (mark_all_read_endpoint 7 bob stN).2 = stN :=
  claim_C9_mark_all_read_zero_unread 7 bob stN (by decide)

/-! ### Claim C10 -/

/-- C10: the single-notification mark-as-read operation, run by the owner
on an already-read notification, succeeds and overwrites read_at with the
current time, whereas the bulk mark-all-read filters on unread and leaves
the already-read notification exactly as it was. -/
theorem claim_C10_reread_overwrites (t1 t2 : Nat) (current_user : User) (nid : Nat)
    (st : AppState) (n : Notification)
    (hfind : Notification.find_by_id st.notifications nid = some n)
    (hown : n.user_id = current_user.id)
    (hread : n.is_read = true) :
    (mark_notification_read_endpoint t1 current_user nid st).1 =
      Except.ok { n with is_read := true, read_at := some t1 } ∧
    Notification.find_by_id
      (NotificationRepository.mark_all_as_read t2 st.notifications current_user.id).2 nid =
      some n := by
  refine ⟨?_, ?_⟩
  · simp only [mark_notification_read_endpoint, hfind]
    rw [if_neg (by simp [hown])]
    simp only [NotificationRepository.mark_as_read, hfind, Option.map_some']
  · simp only [NotificationRepository.mark_all_as_read, Notification.find_by_id] at hfind ⊢
    rw [find?_map_pres _ _ (fun x => by split <;> rfl), hfind]
    simp [hread]

/-- C10 witness: Bob re-marks his already-read notification 500 at time 7;
it succeeds with read_at overwritten to 7, and the bulk operation leaves
it with its original read_at. -/
theorem claim_C10_witness :
    (mark_notification_read_endpoint 7 bob 500 stN).1 =
      Except.ok { notifRead with is_read := true, read_at := some 7 } ∧
    Notification.find_by_id
      (NotificationRepository.mark_all_as_read 9 stN.notifications bob.id).2 500 =
      some notifRead :=
  claim_C10_reread_overwrites 7 9 bob 500 stN notifRead (by decide) (by decide) (by decide)

/-! ### Claim C5 -/

/-- C5: forwarding an existing document to an existing target department
with an assignee that resolves to a user of a different department fails
with ValidationError and leaves the whole state (documents, ledger,
notifications) unchanged, whatever failure flags are in force. -/
theorem claim_C5_forward_assignee_wrong_department (now : Nat) (current_user : User)
    (document_id : Nat) (forward_data : DocumentForward) (uid : Nat)
    (assigned_user : User) (d : Document) (dep : Department) (f1 f2 f3 : Bool)
    (st : AppState)
    (hdoc : Document.find_by_id st.documents document_id = some d)
    (hdep : Department.find_by_id st.departments forward_data.to_department_id = some dep)
    (hau : forward_data.assigned_to_user_id = some uid)
    (huser : User.find_by_id st.users uid = some assigned_user)
    (hdiff : assigned_user.department_id ≠ forward_data.to_department_id) :
    (forward_document_endpoint now current_user document_id forward_data f1 f2 f3 st).result =
      Except.error ApiError.validationError ∧
    (forward_document_endpoint now current_user document_id forward_data f1 f2 f3 st).state =
      st := by
  simp only [forward_document_endpoint, hdoc, hdep, hau, huser]
  rw [if_pos hdiff]
  exact ⟨rfl, rfl⟩

/-- C5 witness: forwarding doc 10 to department 2 with assignee Carol
(department 1) fails with ValidationError and changes nothing. -/
theorem claim_C5_witness :
    (forward_document_endpoint 7 alice 10
      { to_department_id := 2, assigned_to_user_id := some 102, comment := none }
      false false false st0).result = Except.error ApiError.validationError ∧
    (forward_document_endpoint 7 alice 10
      { to_department_id := 2, assigned_to_user_id := some 102, comment := none }
      false false false st0).state = st0 :=
  claim_C5_forward_assignee_wrong_department 7 alice 10
    { to_department_id := 2, assigned_to_user_id := some 102, comment := none }
    102 carol doc0 deptB false false false st0
    (by decide) (by decide) (by decide) (by decide) (by decide)

/-! ### Claim C6 -/

/-- C6 counterexample: a create request whose assignee id 999 resolves to
no user fails with NotFound (HTTP 404), not with ValidationError as the
claim states; no document is created. -/
theorem claim_C6_cex :
    (create_document_endpoint 7 2025 alice
      { title := "T", description := "D", document_type := "memo", priority := "low",
        assigned_to_user_id := some 999 } false false false st0).result =
      Except.error ApiError.notFound ∧
    (create_document_endpoint 7 2025 alice
      { title := "T", description := "D", document_type := "memo", priority := "low",
        assigned_to_user_id := some 999 } false false false st0).result ≠
      Except.error ApiError.validationError ∧
    (create_document_endpoint 7 2025 alice
      { title := "T", description := "D", document_type := "memo", priority := "low",
        assigned_to_user_id := some 999 } false false false st0).state = st0 := by
  decide

/-- C6 amended: a create request whose supplied assignee id does not
resolve to an existing user fails with NotFound (the source raises HTTP
404 "Assigned user not found"), and no document — nor any other record —
is created. -/
theorem claim_C6_amended (now year : Nat) (current_user : User) (data : DocumentCreate)
    (uid : Nat) (f1 f2 f3 : Bool) (st : AppState)
    (ha : data.assigned_to_user_id = some uid)
    (hm : User.find_by_id st.users uid = none) :
    (create_document_endpoint now year current_user data f1 f2 f3 st).result =
      Except.error ApiError.notFound ∧
    (create_document_endpoint now year current_user data f1 f2 f3 st).state = st := by
  simp [create_document_endpoint, ha, hm]

/-- C6 witness: concrete instance of the amended statement. -/
theorem claim_C6_witness :
    (create_document_endpoint 7 2025 carol
      { title := "T2", description := "D2", document_type := "memo", priority := "low",
        assigned_to_user_id := some 998 } false false false st0).result =
      Except.error ApiError.notFound ∧
    (create_document_endpoint 7 2025 carol
      { title := "T2", description := "D2", document_type := "memo", priority := "low",
        assigned_to_user_id := some 998 } false false false st0).state = st0 :=
  claim_C6_amended 7 2025 carol
    { title := "T2", description := "D2", document_type := "memo", priority := "low",
      assigned_to_user_id := some 998 } 998 false false false st0 (by decide) (by decide)

/-! ### Claims C1 and C3 -/

/-- The status-change notification fan-out writes only notifications and
the id counter; documents and history are untouched. -/
theorem notify_status_changed_preserves (now : Nat) (fN : Bool) (st : AppState)
    (document : Document) (o ns : DocumentStatus) (nm : String) :
    (notify_status_changed now fN st document o ns nm).2.documents = st.documents ∧
    (notify_status_changed now fN st document o ns nm).2.history = st.history := by
  unfold notify_status_changed create_notification
  cases document.assigned_to_user_id <;> cases fN <;> simp <;> split <;> simp

/-- C1 counterexample: on the base state, the status-change operation with
value archived succeeds and leaves a document whose status is archived
while archived_at is still unset — so status archived is reachable
without the archive transition stamping archived_at. -/
theorem claim_C1_cex :
    (update_document_status_endpoint 7 alice 10
      { status := DocumentStatus.archived, reason := none } false false false st0).result =
      Except.ok { doc0 with status := DocumentStatus.archived } ∧
    Document.find_by_id
      (update_document_status_endpoint 7 alice 10
        { status := DocumentStatus.archived, reason := none }
        false false false st0).state.documents 10 =
      some { doc0 with status := DocumentStatus.archived } ∧
    ({ doc0 with status := DocumentStatus.archived } : Document).archived_at = none := by
  decide

/-- C1 amended: the archive transition stamps both status archived and
archived_at; the status-change operation never modifies archived_at (its
`$set` covers only the status field), so a status of archived obtained
through it leaves archived_at exactly as it was — the if-and-only-if of
the claim fails in that direction. -/
theorem claim_C1_amended (now : Nat) (u u2 : User) (document_id : Nat) (st : AppState)
    (d : Document) (sd : DocumentStatusUpdate)
    (hfind : Document.find_by_id st.documents document_id = some d)
    (hperm : can_archive u d = true) :
    Document.find_by_id
      (archive_document_endpoint now u document_id false false st).state.documents
      document_id =
      some { d with status := DocumentStatus.archived, archived_at := some now } ∧
    (Document.find_by_id
        (update_document_status_endpoint now u2 document_id sd false false false
          st).state.documents document_id).map Document.archived_at =
      some d.archived_at := by
  constructor
  · simp only [archive_document_endpoint, hfind, hperm, if_true, Bool.false_eq_true,
      if_false, DocumentRepository.archive_document, create_audit_entry]
    simp only [Document.find_by_id] at hfind ⊢
    rw [find?_replaceFirst_pres]
    · rw [hfind]; rfl
    · exact fun x => rfl
  · by_cases hperm2 : can_update_status u2 d = true
    · simp only [update_document_status_endpoint, hfind, hperm2, if_true, Bool.false_eq_true,
        if_false, DocumentRepository.update_status, create_audit_entry, Option.map_some']
      rw [(notify_status_changed_preserves _ _ _ _ _ _ _).1]
      simp only [Document.find_by_id] at hfind ⊢
      rw [find?_replaceFirst_pres]
      · rw [hfind]; rfl
      · exact fun x => rfl
    · simp [update_document_status_endpoint, hfind, hperm2]

/-- C1 witness: Alice archives document 10 of the base state; the stored
record carries status archived with archived_at = 7, and a status change
on the same state leaves archived_at as it was. -/
theorem claim_C1_witness :
    Document.find_by_id
      (archive_document_endpoint 7 alice 10 false false st0).state.documents 10 =
      some { doc0 with status := DocumentStatus.archived, archived_at := some 7 } ∧
    (Document.find_by_id
        (update_document_status_endpoint 7 carol 10
          { status := DocumentStatus.completed, reason := none }
          false false false st0).state.documents 10).map Document.archived_at =
      some doc0.archived_at :=
  claim_C1_amended 7 alice carol 10 st0 doc0
    { status := DocumentStatus.completed, reason := none } (by decide) (by decide)

/-- C3 counterexample: a successful archive of document 10 by its creator
creates no notification at all — the notifications collection is
unchanged — contradicting the claim that exactly one notification is
created for the creator. -/
theorem claim_C3_cex :
    (archive_document_endpoint 7 alice 10 false false st0).result = Except.ok () ∧
    (archive_document_endpoint 7 alice 10 false false st0).state.notifications =
      st0.notifications := by
  decide

/-- C3 amended: a successful archive sets status archived, stamps
archived_at, writes exactly one archived history entry for the document,
and creates no notification (the archive endpoint never calls the
notification service). -/
theorem claim_C3_amended (now : Nat) (u : User) (document_id : Nat) (st : AppState)
    (d : Document)
    (hfind : Document.find_by_id st.documents document_id = some d)
    (hperm : can_archive u d = true) :
    (archive_document_endpoint now u document_id false false st).result = Except.ok () ∧
    Document.find_by_id
      (archive_document_endpoint now u document_id false false st).state.documents
      document_id =
      some { d with status := DocumentStatus.archived, archived_at := some now } ∧
    (archive_document_endpoint now u document_id false false st).state.history =
      st.history ++
        [{ document_id := document_id, action := DocumentAction.archived,
           performed_by := u.id, performed_by_name := u.full_name,
           performed_by_department := u.department_id, from_department_id := none,
           to_department_id := none, old_status := none, new_status := none,
           status_reason := none, comment := some "Document archived",
           timestamp := now }] ∧
    (archive_document_endpoint now u document_id false false st).state.notifications =
      st.notifications := by
  refine ⟨?_, ?_, ?_, ?_⟩
  · simp [archive_document_endpoint, hfind, hperm]
  · simp only [archive_document_endpoint, hfind, hperm, if_true, Bool.false_eq_true,
      if_false, DocumentRepository.archive_document, create_audit_entry]
    simp only [Document.find_by_id] at hfind ⊢
    rw [find?_replaceFirst_pres]
    · rw [hfind]; rfl
    · exact fun x => rfl
  · simp [archive_document_endpoint, hfind, hperm, create_audit_entry]
  · simp [archive_document_endpoint, hfind, hperm, create_audit_entry]

/-- C3 witness: concrete instance of the amended statement on the base
state. -/
theorem claim_C3_witness :
    (archive_document_endpoint 7 alice 10 false false st0).result = Except.ok () ∧
    Document.find_by_id
      (archive_document_endpoint 7 alice 10 false false st0).state.documents 10 =
      some { doc0 with status := DocumentStatus.archived, archived_at := some 7 } ∧
    (archive_document_endpoint 7 alice 10 false false st0).state.history =
      st0.history ++
        [{ document_id := 10, action := DocumentAction.archived, performed_by := alice.id,
           performed_by_name := alice.full_name,
           performed_by_department := alice.department_id, from_department_id := none,
           to_department_id := none, old_status := none, new_status := none,
           status_reason := none, comment := some "Document archived", timestamp := 7 }] ∧
    (archive_document_endpoint 7 alice 10 false false st0).state.notifications =
      st0.notifications :=
  claim_C3_amended 7 alice 10 st0 doc0 (by decide) (by decide)

/-! ### Claim C8 -/

/-- GET /documents/id repeated over a list of actors, threading state. -/
def view_fold (now : Nat) (actors : List User) (document_id : Nat) (st : AppState) :
    AppState :=
  actors.foldl (fun s u => (get_document_endpoint now u document_id s).state) st

/-- Number of viewed ledger entries for a document. -/
def viewedCount (h : List HistoryEntry) (document_id : Nat) : Nat :=
  (h.filter (fun e => e.document_id == document_id &&
    decide (e.action = DocumentAction.viewed))).length

/-- `viewedCount` distributes over appends. -/
theorem viewedCount_append (h1 h2 : List HistoryEntry) (document_id : Nat) :
    viewedCount (h1 ++ h2) document_id =
      viewedCount h1 document_id + viewedCount h2 document_id := by
  simp [viewedCount, List.filter_append]

/-- One authorized read returns the document and appends exactly one
viewed ledger entry, changing nothing else. -/
theorem view_writes_one_entry (now : Nat) (u : User) (document_id : Nat) (st : AppState)
    (d : Document)
    (hfind : Document.find_by_id st.documents document_id = some d)
    (hview : can_view u d = true) :
    (get_document_endpoint now u document_id st).result = Except.ok d ∧
    (get_document_endpoint now u document_id st).state =
      { st with history := st.history ++
        [{ document_id := document_id, action := DocumentAction.viewed,
           performed_by := u.id, performed_by_name := u.full_name,
           performed_by_department := u.department_id, from_department_id := none,
           to_department_id := none, old_status := none, new_status := none,
           status_reason := none, comment := none, timestamp := now }] } := by
  simp [get_document_endpoint, hfind, hview, create_audit_entry]

/-- Invariant of the repeated view: documents and notifications are
untouched and the viewed count grows by one per authorized actor. -/
theorem view_fold_invariant (now document_id : Nat) (d : Document) :
    ∀ (actors : List User) (st : AppState),
      Document.find_by_id st.documents document_id = some d →
      (∀ u ∈ actors, can_view u d = true) →
      (view_fold now actors document_id st).documents = st.documents ∧
      (view_fold now actors document_id st).notifications = st.notifications ∧
      viewedCount (view_fold now actors document_id st).history document_id =
        viewedCount st.history document_id + actors.length := by
  intro actors
  induction actors with
  | nil => intro st h1 h2; simp [view_fold]
  | cons u us ih =>
    intro st h1 h2
    have hu : can_view u d = true := h2 u (List.mem_cons_self u us)
    have hstep := view_writes_one_entry now u document_id st d h1 hu
    have hunf : view_fold now (u :: us) document_id st =
        view_fold now us document_id (get_document_endpoint now u document_id st).state :=
      rfl
    rw [hunf, hstep.2]
    have hrec := ih
      { st with history := st.history ++
          [{ document_id := document_id, action := DocumentAction.viewed,
             performed_by := u.id, performed_by_name := u.full_name,
             performed_by_department := u.department_id, from_department_id := none,
             to_department_id := none, old_status := none, new_status := none,
             status_reason := none, comment := none, timestamp := now }] }
      h1 (fun v hv => h2 v (List.mem_cons_of_mem u hv))
    refine ⟨hrec.1, hrec.2.1, ?_⟩
    rw [hrec.2.2]
    dsimp only
    rw [viewedCount_append]
    simp [viewedCount, List.length_cons]
    omega

/-- C8: viewing a document N times by N authorized actors appends exactly
N viewed ledger entries and creates zero notifications, leaving the
documents themselves unchanged; moreover each single successful read
returns the document and appends exactly one viewed entry. -/
theorem claim_C8_view_audit (now : Nat) (document_id : Nat) (st : AppState) (d : Document)
    (actors : List User)
    (hfind : Document.find_by_id st.documents document_id = some d)
    (hauth : ∀ u ∈ actors, can_view u d = true) :
    (view_fold now actors document_id st).documents = st.documents ∧
    (view_fold now actors document_id st).notifications = st.notifications ∧
    viewedCount (view_fold now actors document_id st).history document_id =
      viewedCount st.history document_id + actors.length ∧
    ∀ u, can_view u d = true →
      (get_document_endpoint now u document_id st).result = Except.ok d ∧
      (get_document_endpoint now u document_id st).state.notifications =
        st.notifications ∧
      (get_document_endpoint now u document_id st).state.history =
        st.history ++
          [{ document_id := document_id, action := DocumentAction.viewed,
             performed_by := u.id, performed_by_name := u.full_name,
             performed_by_department := u.department_id, from_department_id := none,
             to_department_id := none, old_status := none, new_status := none,
             status_reason := none, comment := none, timestamp := now }] := by
  have hmain := view_fold_invariant now document_id d actors st hfind hauth
  refine ⟨hmain.1, hmain.2.1, hmain.2.2, ?_⟩
  intro u hu
  have hstep := view_writes_one_entry now u document_id st d hfind hu
  exact ⟨hstep.1, by rw [hstep.2], by rw [hstep.2]⟩

/-- C8 witness: Alice and Carol (both authorized for document 10 of the
base state) view it once each: two viewed entries, no notification,
documents unchanged; a single view appends one entry. -/
theorem claim_C8_witness :
    (view_fold 7 [alice, carol] 10 st0).documents = st0.documents ∧
    (view_fold 7 [alice, carol] 10 st0).notifications = st0.notifications ∧
    viewedCount (view_fold 7 [alice, carol] 10 st0).history 10 =
      viewedCount st0.history 10 + 2 ∧
    ∀ u, can_view u doc0 = true →
      (get_document_endpoint 7 u 10 st0).result = Except.ok doc0 ∧
      (get_document_endpoint 7 u 10 st0).state.notifications = st0.notifications ∧
      (get_document_endpoint 7 u 10 st0).state.history =
        st0.history ++
          [{ document_id := 10, action := DocumentAction.viewed,
             performed_by := u.id, performed_by_name := u.full_name,
             performed_by_department := u.department_id, from_department_id := none,
             to_department_id := none, old_status := none, new_status := none,
             status_reason := none, comment := none, timestamp := 7 }] :=
  claim_C8_view_audit 7 10 st0 doc0 [alice, carol] (by decide) (by decide)

/-! ### Claim C2 -/

/-- The forwarding fan-out adds exactly one notification per active user
of the list it is handed. -/
theorem forwarded_fanout_len (now : Nat) (document : Document) (td : Nat)
    (dn fb : String) :
    ∀ (users : List User) (acc : List Notification × AppState),
      (forwarded_fanout now false document td dn fb users acc).2.notifications.length =
        acc.2.notifications.length + (users.filter (fun u => u.is_active)).length := by
  intro users
  induction users with
  | nil => intro acc; simp [forwarded_fanout]
  | cons u us ih =>
    intro acc
    simp only [forwarded_fanout]
    rw [ih]
    by_cases hu : u.is_active = true
    · simp [hu, create_notification, List.filter_cons]
      omega
    · simp [hu, List.filter_cons]

/-- C2 counterexample: forwarding document 10 to department 2 — which has
21 active users — with no named assignee succeeds but creates only 20
notifications, because `UserRepository.find_by_department` inherits
`find_many`'s default `limit = 20`; the claim demands 21. -/
theorem claim_C2_cex :
    (forward_document_endpoint 7 alice 10
      { to_department_id := 2, assigned_to_user_id := none, comment := none }
      false false false stBig).result =
      Except.ok { doc0 with current_holder_department_id := 2 } ∧
    (forward_document_endpoint 7 alice 10
      { to_department_id := 2, assigned_to_user_id := none, comment := none }
      false false false stBig).state.notifications.length = 20 ∧
    (stBig.users.filter (fun v => v.department_id == 2 && v.is_active)).length = 21 := by
  decide

/-- C2 amended: for a successful assignee-less forward the number of
notifications created equals the number of active users among the first
20 users of the target department returned by the store (find_many's
default limit); when the department holds at most 20 users this is
exactly the count of its active users, as the claim states, but not for
larger departments. -/
theorem claim_C2_amended (now : Nat) (current_user : User) (document_id : Nat)
    (forward_data : DocumentForward) (st : AppState) (d : Document) (dep : Department)
    (hdoc : Document.find_by_id st.documents document_id = some d)
    (hdep : Department.find_by_id st.departments forward_data.to_department_id = some dep)
    (hnone : forward_data.assigned_to_user_id = none)
    (hperm : can_forward current_user d = true)
    (hsmall : (st.users.filter
      (fun v => v.department_id == forward_data.to_department_id)).length ≤ 20) :
    (forward_document_endpoint now current_user document_id forward_data
      false false false st).state.notifications.length =
      st.notifications.length +
        (st.users.filter (fun v => v.department_id == forward_data.to_department_id &&
          v.is_active)).length := by
  simp only [forward_document_endpoint, hdoc, hdep, hnone, hperm, if_true,
    Bool.false_eq_true, if_false, DocumentRepository.forward_document,
    create_audit_entry, Option.map_some']
  simp only [notify_document_forwarded, UserRepository.find_by_department, find_many,
    List.drop_zero]
  rw [List.take_of_length_le hsmall, forwarded_fanout_len, List.filter_filter]
  have hcomm : (List.filter
      (fun a => a.is_active && a.department_id == forward_data.to_department_id) st.users) =
      List.filter (fun v => v.department_id == forward_data.to_department_id && v.is_active)
        st.users :=
    List.filter_congr (fun x _ => Bool.and_comm _ _)
  rw [hcomm]

/-- C2 witness: department 2 of the base state has a single (active)
user, Bob; an assignee-less forward there creates exactly one
notification. -/
theorem claim_C2_witness :
    (forward_document_endpoint 7 alice 10
      { to_department_id := 2, assigned_to_user_id := none, comment := none }
      false false false st0).state.notifications.length =
      st0.notifications.length +
        (st0.users.filter (fun v => v.department_id == 2 && v.is_active)).length :=
  claim_C2_amended 7 alice 10
    { to_department_id := 2, assigned_to_user_id := none, comment := none }
    st0 doc0 deptB (by decide) (by decide) (by decide) (by decide) (by decide)

/-! ### Claim C7 -/

/-- The phase discipline of one transition relative to its starting
state: the ledger phase is reached only after the document phase and the
notification phase only after the ledger phase; a changed ledger or
notification collection implies the earlier phases were reached; an
injected document-store failure leaves ledger and notifications
untouched, and an injected ledger failure leaves notifications
untouched. -/
def transition_ordering_ok (st : AppState) (failDoc failLedger : Bool)
    (r : AppState × StepTrace) : Prop :=
  (r.2.ledger_attempted = true → r.2.doc_attempted = true) ∧
  (r.2.notif_attempted = true → r.2.ledger_attempted = true) ∧
  (r.1.history ≠ st.history → r.2.doc_attempted = true) ∧
  (r.1.notifications ≠ st.notifications → r.2.ledger_attempted = true) ∧
  (failDoc = true → r.1.history = st.history ∧ r.1.notifications = st.notifications) ∧
  (failLedger = true → r.1.notifications = st.notifications)

/-- Phase discipline of the create endpoint. -/
theorem create_document_order (now year : Nat) (u : User) (data : DocumentCreate)
    (fd fl fn : Bool) (st : AppState) :
    transition_ordering_ok st fd fl
      (run_transition now year u (TransitionRequest.createDoc data) fd fl fn st) := by
  unfold run_transition transition_ordering_ok create_document_endpoint
  repeat' split
  all_goals (try simp_all [create_audit_entry, notify_document_created,
    DocumentRepository.create_document, create_notification])
  all_goals (repeat' split)
  all_goals simp_all [create_audit_entry, notify_document_created,
    DocumentRepository.create_document, create_notification]

/-- Phase discipline of the forward endpoint. -/
theorem forward_document_order (now year : Nat) (u : User) (document_id : Nat)
    (data : DocumentForward) (fd fl fn : Bool) (st : AppState) :
    transition_ordering_ok st fd fl
      (run_transition now year u (TransitionRequest.forward document_id data) fd fl fn st) := by
  unfold run_transition transition_ordering_ok forward_document_endpoint
  repeat' split
  all_goals (try simp_all [create_audit_entry])
  all_goals (repeat' split)
  all_goals simp_all [create_audit_entry]

/-- Phase discipline of the status-change endpoint. -/
theorem update_status_order (now year : Nat) (u : User) (document_id : Nat)
    (data : DocumentStatusUpdate) (fd fl fn : Bool) (st : AppState) :
    transition_ordering_ok st fd fl
      (run_transition now year u (TransitionRequest.changeStatus document_id data)
        fd fl fn st) := by
  unfold run_transition transition_ordering_ok update_document_status_endpoint
  repeat' split
  all_goals (try simp_all [create_audit_entry])
  all_goals (repeat' split)
  all_goals simp_all [create_audit_entry]

/-- Phase discipline of the archive endpoint. -/
theorem archive_document_order (now year : Nat) (u : User) (document_id : Nat)
    (fd fl fn : Bool) (st : AppState) :
    transition_ordering_ok st fd fl
      (run_transition now year u (TransitionRequest.archiveDoc document_id) fd fl fn st) := by
  unfold run_transition transition_ordering_ok archive_document_endpoint
  repeat' split
  all_goals (try simp_all [create_audit_entry])
  all_goals (repeat' split)
  all_goals simp_all [create_audit_entry]

/-- Phase discipline of the modify endpoint. -/
theorem update_document_order (now year : Nat) (u : User) (document_id : Nat)
    (data : DocumentUpdate) (fd fl fn : Bool) (st : AppState) :
    transition_ordering_ok st fd fl
      (run_transition now year u (TransitionRequest.modify document_id data) fd fl fn st) := by
  unfold run_transition transition_ordering_ok update_document_endpoint
  repeat' split
  all_goals (try simp_all [create_audit_entry])
  all_goals (repeat' split)
  all_goals simp_all [create_audit_entry]

/-- Phase discipline of the file-upload endpoint. -/
theorem upload_file_order (now year : Nat) (u : User) (document_id : Nat)
    (filename content_type : String) (file_size file_id : Nat)
    (fd fl fn : Bool) (st : AppState) :
    transition_ordering_ok st fd fl
      (run_transition now year u
        (TransitionRequest.addFile document_id filename content_type file_size file_id)
        fd fl fn st) := by
  unfold run_transition transition_ordering_ok upload_file_endpoint
  repeat' split
  all_goals (try simp_all [create_audit_entry])
  all_goals (repeat' split)
  all_goals simp_all [create_audit_entry]

/-- Phase discipline of the file-removal endpoint. -/
theorem delete_file_order (now year : Nat) (u : User) (document_id file_id : Nat)
    (fd fl fn : Bool) (st : AppState) :
    transition_ordering_ok st fd fl
      (run_transition now year u (TransitionRequest.removeFile document_id file_id)
        fd fl fn st) := by
  unfold run_transition transition_ordering_ok delete_file_endpoint
  repeat' split
  all_goals (try simp_all [create_audit_entry])
  all_goals (repeat' split)
  all_goals simp_all [create_audit_entry]

/-- C7: every lifecycle transition (create, forward, status-change,
archive, modify, file add, file remove) attempts the document-store
mutation before the ledger append and the ledger append before
notification creation; an earlier injected failure skips all later
phases, so a transition never leaves a new ledger entry or notification
without the earlier phases having been reached. -/
theorem claim_C7_transition_ordering (now year : Nat) (u : User) (req : TransitionRequest)
    (failDoc failLedger failNotif : Bool) (st : AppState) :
    transition_ordering_ok st failDoc failLedger
      (run_transition now year u req failDoc failLedger failNotif st) := by
  cases req with
  | createDoc data => exact create_document_order now year u data failDoc failLedger failNotif st
  | forward document_id data =>
      exact forward_document_order now year u document_id data failDoc failLedger failNotif st
  | changeStatus document_id data =>
      exact update_status_order now year u document_id data failDoc failLedger failNotif st
  | archiveDoc document_id =>
      exact archive_document_order now year u document_id failDoc failLedger failNotif st
  | modify document_id data =>
      exact update_document_order now year u document_id data failDoc failLedger failNotif st
  | addFile document_id filename content_type file_size file_id =>
      exact upload_file_order now year u document_id filename content_type file_size file_id
        failDoc failLedger failNotif st
  | removeFile document_id file_id =>
      exact delete_file_order now year u document_id file_id failDoc failLedger failNotif st

/-- C7 witness: the discipline at a concrete run — a forward of document
10 with an injected ledger failure keeps the document mutation but
creates no notification. -/
theorem claim_C7_witness :
    transition_ordering_ok st0 false true
      (run_transition 7 2025 alice
        (TransitionRequest.forward 10
          { to_department_id := 2, assigned_to_user_id := none, comment := none })
        false true false st0) :=
  claim_C7_transition_ordering 7 2025 alice
    (TransitionRequest.forward 10
      { to_department_id := 2, assigned_to_user_id := none, comment := none })
    false true false st0

/-! ### Claim C4: arithmetic of the number allocator -/

/-- The code point of a generated digit character. -/
theorem toNat_ofNat_digit (n : Nat) (h : n < 10) :
    (Char.ofNat (48 + n)).toNat = 48 + n := by
  interval_cases n <;> decide

/-- Every character `str(n)` produces is a decimal digit. -/
theorem natToDigits_all_digits (n : Nat) :
    ∀ c ∈ natToDigits n, 48 ≤ c.toNat ∧ c.toNat ≤ 57 := by
  induction n using Nat.strong_induction_on with
  | _ n ih =>
    rw [natToDigits_unfold]
    by_cases hn : n < 10
    · rw [if_pos hn]
      intro c hc
      rw [List.mem_singleton] at hc
      subst hc
      rw [toNat_ofNat_digit n hn]
      omega
    · rw [if_neg hn]
      intro c hc
      rcases List.mem_append.mp hc with h1 | h2
      · exact ih (n / 10) (by omega) c h1
      · rw [List.mem_singleton] at h2
        subst h2
        rw [toNat_ofNat_digit (n % 10) (by omega)]
        omega

/-- The folding accumulator of `parseDigits`, made explicit. -/
theorem parseDigits_foldl_acc : ∀ (cs : List Char) (acc : Nat),
    cs.foldl (fun n c => n * 10 + (c.toNat - 48)) acc =
      acc * 10 ^ cs.length + parseDigits cs := by
  intro cs
  induction cs with
  | nil => intro acc; simp [parseDigits]
  | cons c cs ih =>
    intro acc
    show cs.foldl _ (acc * 10 + (c.toNat - 48)) = _
    rw [ih]
    have hx : parseDigits (c :: cs) =
        (c.toNat - 48) * 10 ^ cs.length + parseDigits cs := by
      show cs.foldl _ (0 * 10 + (c.toNat - 48)) = _
      rw [ih]
      ring_nf
    rw [hx, List.length_cons, pow_succ]
    ring

/-- `parseDigits` on a cons. -/
theorem parseDigits_cons (c : Char) (cs : List Char) :
    parseDigits (c :: cs) = (c.toNat - 48) * 10 ^ cs.length + parseDigits cs := by
  show cs.foldl _ (0 * 10 + (c.toNat - 48)) = _
  rw [parseDigits_foldl_acc]
  ring_nf

/-- A digit string of length k parses below 10 ^ k. -/
theorem parseDigits_lt (cs : List Char) (h : ∀ c ∈ cs, 48 ≤ c.toNat ∧ c.toNat ≤ 57) :
    parseDigits cs < 10 ^ cs.length := by
  induction cs with
  | nil => simp [parseDigits]
  | cons c cs ih =>
    rw [parseDigits_cons, List.length_cons, pow_succ]
    have hc := h c (List.mem_cons_self c cs)
    have hcs := ih (fun x hx => h x (List.mem_cons_of_mem c hx))
    have h9 : (c.toNat - 48) * 10 ^ cs.length ≤ 9 * 10 ^ cs.length :=
      Nat.mul_le_mul_right _ (by omega)
    omega

/-- Parsing inverts printing. -/
theorem parseDigits_natToDigits (n : Nat) : parseDigits (natToDigits n) = n := by
  induction n using Nat.strong_induction_on with
  | _ n ih =>
    rw [natToDigits_unfold]
    by_cases hn : n < 10
    · rw [if_pos hn]
      show 0 * 10 + ((Char.ofNat (48 + n)).toNat - 48) = n
      rw [toNat_ofNat_digit n hn]
      omega
    · rw [if_neg hn]
      have hx : parseDigits (natToDigits (n / 10) ++ [Char.ofNat (48 + n % 10)]) =
          parseDigits (natToDigits (n / 10)) * 10 +
            ((Char.ofNat (48 + n % 10)).toNat - 48) := by
        show List.foldl _ _ _ = _
        rw [List.foldl_append]
        rfl
      rw [hx, ih (n / 10) (by omega), toNat_ofNat_digit (n % 10) (by omega)]
      omega

/-- `str(n)` has at most k + 1 digits when n < 10 ^ (k + 1). -/
theorem natToDigits_length_le (k : Nat) : ∀ n, n < 10 ^ (k + 1) →
    (natToDigits n).length ≤ k + 1 := by
  induction k with
  | zero =>
    intro n h
    rw [natToDigits_unfold, if_pos (by simpa using h)]
    simp
  | succ k ih =>
    intro n h
    rw [natToDigits_unfold]
    by_cases hn : n < 10
    · rw [if_pos hn]; simp
    · rw [if_neg hn, List.length_append, List.length_singleton]
      have hdiv : n / 10 < 10 ^ (k + 1) := by
        rw [Nat.div_lt_iff_lt_mul (by omega)]
        calc n < 10 ^ (k + 1 + 1) := h
          _ = 10 ^ (k + 1) * 10 := by rw [pow_succ]
      have := ih (n / 10) hdiv
      omega

/-- Zero-padding parses to the same value. -/
theorem parseDigits_padLeft (w n : Nat) : parseDigits (padLeft w n) = n := by
  have hz : ∀ (k : Nat),
      (List.replicate k '0').foldl (fun m c => m * 10 + (c.toNat - 48)) 0 = 0 := by
    intro k
    induction k with
    | zero => rfl
    | succ k ih => rw [List.replicate_succ]; exact ih
  show List.foldl _ _ (List.replicate _ '0' ++ natToDigits n) = n
  rw [List.foldl_append, hz]
  exact parseDigits_natToDigits n

/-- Zero-padding yields exactly width w when the digits fit. -/
theorem padLeft_length (w n : Nat) (h : (natToDigits n).length ≤ w) :
    (padLeft w n).length = w := by
  simp [padLeft]
  omega

/-- Every character of a zero-padded number is a decimal digit. -/
theorem padLeft_all_digits (w n : Nat) :
    ∀ c ∈ padLeft w n, 48 ≤ c.toNat ∧ c.toNat ≤ 57 := by
  intro c hc
  rcases List.mem_append.mp hc with h1 | h2
  · rw [List.eq_of_mem_replicate h1]
    decide
  · exact natToDigits_all_digits n c h2

/-- Width-5 padding of a value below 10000 is a zero before its width-4
padding. -/
theorem padLeft_five_eq_cons (n : Nat) (h : n < 10000) :
    padLeft 5 n = '0' :: padLeft 4 n := by
  have hlen : (natToDigits n).length ≤ 4 := natToDigits_length_le 3 n (by norm_num; omega)
  show List.replicate (5 - (natToDigits n).length) '0' ++ _ =
    '0' :: (List.replicate (4 - (natToDigits n).length) '0' ++ _)
  have h5 : 5 - (natToDigits n).length = (4 - (natToDigits n).length) + 1 := by omega
  rw [h5, List.replicate_succ]
  rfl

/-- Characters with equal code points are equal. -/
theorem char_eq_of_toNat_eq (a b : Char) (h : a.toNat = b.toNat) : a = b := by
  have hv : a.val = b.val := by
    have h2 : a.val.toNat = b.val.toNat := h
    exact UInt32.toNat.inj h2
  exact Char.eq_of_val_eq hv

/-- On equal-length digit strings, Mongo string order coincides with the
numeric order of the parsed values. -/
theorem lexLt_iff_parse_lt : ∀ (xs ys : List Char), xs.length = ys.length →
    (∀ c ∈ xs, 48 ≤ c.toNat ∧ c.toNat ≤ 57) →
    (∀ c ∈ ys, 48 ≤ c.toNat ∧ c.toNat ≤ 57) →
    (lexLt xs ys = true ↔ parseDigits xs < parseDigits ys) := by
  intro xs
  induction xs with
  | nil =>
    intro ys hlen _ _
    cases ys with
    | nil => simp [lexLt, parseDigits]
    | cons b bs => simp at hlen
  | cons a as ih =>
    intro ys hlen hx hy
    cases ys with
    | nil => simp at hlen
    | cons b bs =>
      have hlen' : as.length = bs.length := by simpa using hlen
      have hda := hx a (List.mem_cons_self a as)
      have hdb := hy b (List.mem_cons_self b bs)
      have hpa : parseDigits as < 10 ^ bs.length :=
        hlen' ▸ parseDigits_lt as (fun c hc => hx c (List.mem_cons_of_mem a hc))
      have hpb : parseDigits bs < 10 ^ bs.length :=
        parseDigits_lt bs (fun c hc => hy c (List.mem_cons_of_mem b hc))
      rw [parseDigits_cons, parseDigits_cons, hlen']
      show (if a = b then lexLt as bs else decide (a.toNat < b.toNat)) = true ↔ _
      by_cases hab : a = b
      · rw [if_pos hab, hab,
          ih bs hlen' (fun c hc => hx c (List.mem_cons_of_mem a hc))
            (fun c hc => hy c (List.mem_cons_of_mem b hc))]
        omega
      · rw [if_neg hab, decide_eq_true_iff]
        constructor
        · intro hlt
          have h1 : (a.toNat - 48) + 1 ≤ b.toNat - 48 := by omega
          calc (a.toNat - 48) * 10 ^ bs.length + parseDigits as
              < (a.toNat - 48) * 10 ^ bs.length + 10 ^ bs.length := by omega
            _ = ((a.toNat - 48) + 1) * 10 ^ bs.length := by ring
            _ ≤ (b.toNat - 48) * 10 ^ bs.length := Nat.mul_le_mul_right _ h1
            _ ≤ (b.toNat - 48) * 10 ^ bs.length + parseDigits bs := Nat.le_add_right _ _
        · intro hsum
          by_contra hnl
          have hne : a.toNat ≠ b.toNat := fun hEq => hab (char_eq_of_toNat_eq a b hEq)
          have hgt : b.toNat < a.toNat := by omega
          have h1 : (b.toNat - 48) + 1 ≤ a.toNat - 48 := by omega
          have : (b.toNat - 48) * 10 ^ bs.length + parseDigits bs
              < (a.toNat - 48) * 10 ^ bs.length + parseDigits as := by
            calc (b.toNat - 48) * 10 ^ bs.length + parseDigits bs
                < (b.toNat - 48) * 10 ^ bs.length + 10 ^ bs.length := by omega
              _ = ((b.toNat - 48) + 1) * 10 ^ bs.length := by ring
              _ ≤ (a.toNat - 48) * 10 ^ bs.length := Nat.mul_le_mul_right _ h1
              _ ≤ (a.toNat - 48) * 10 ^ bs.length + parseDigits as := Nat.le_add_right _ _
          omega

/-- String order on width-4 zero-padded values below 10000 is numeric
order. -/
theorem lexLt_padLeft_four (a n : Nat) (ha : a < 10000) (hn : n < 10000) :
    (lexLt (padLeft 4 a) (padLeft 4 n) = true) ↔ a < n := by
  have hla : (padLeft 4 a).length = 4 :=
    padLeft_length 4 a (natToDigits_length_le 3 a (by norm_num; omega))
  have hln : (padLeft 4 n).length = 4 :=
    padLeft_length 4 n (natToDigits_length_le 3 n (by norm_num; omega))
  rw [lexLt_iff_parse_lt _ _ (by omega) (padLeft_all_digits 4 a) (padLeft_all_digits 4 n),
    parseDigits_padLeft, parseDigits_padLeft]

/-- The maximum of a list of bounded values stays bounded. -/
theorem foldl_max_lt (bound : Nat) : ∀ (ns : List Nat) (a : Nat), a < bound →
    (∀ n ∈ ns, n < bound) → ns.foldl Nat.max a < bound := by
  intro ns
  induction ns with
  | nil => intro a ha _; exact ha
  | cons n rest ih =>
    intro a ha hns
    rw [List.foldl_cons]
    have hn := hns n (List.mem_cons_self n rest)
    exact ih (Nat.max a n) (Nat.max_lt.mpr ⟨ha, hn⟩)
      (fun m hm => hns m (List.mem_cons_of_mem n hm))

/-- The descending-sort-and-take-top step over width-4 paddings computes
the padding of the numeric maximum. -/
theorem foldl_lex_max_pad : ∀ (ns : List Nat) (a : Nat), a < 10000 →
    (∀ n ∈ ns, n < 10000) →
    (ns.map (padLeft 4)).foldl (fun m x => if lexLt m x then x else m) (padLeft 4 a) =
      padLeft 4 (ns.foldl Nat.max a) := by
  intro ns
  induction ns with
  | nil => intro a _ _; rfl
  | cons n rest ih =>
    intro a ha hns
    have hn : n < 10000 := hns n (List.mem_cons_self n rest)
    rw [List.map_cons, List.foldl_cons, List.foldl_cons]
    by_cases hc : a < n
    · have hmax : Nat.max a n = n := Nat.max_eq_right (Nat.le_of_lt hc)
      rw [if_pos ((lexLt_padLeft_four a n ha hn).mpr hc), hmax]
      exact ih n hn (fun m hm => hns m (List.mem_cons_of_mem n hm))
    · have hmax : Nat.max a n = a := Nat.max_eq_left (Nat.le_of_not_lt hc)
      rw [if_neg (by
        intro hcon
        exact hc ((lexLt_padLeft_four a n ha hn).mp hcon)),
        hmax]
      exact ih a ha (fun m hm => hns m (List.mem_cons_of_mem n hm))

/-- An anchored match succeeds on its own extension. -/
theorem listStartsWith_append (p rest : List Char) :
    listStartsWith p (p ++ rest) = true := by
  induction p with
  | nil => rfl
  | cons c cs ih => simp [listStartsWith, ih]

/-- `$substr(_, 10, 5)` of a standard number `DOC-<4-digit year>-<pad5 n>`
with n < 10000 is the last four digits — the leading digit of the
sequence is cut off. -/
theorem substrTenFive_mk (year n : Nat) (hy : (natToDigits year).length = 4)
    (hn : n < 10000) :
    substrTenFive (String.mk (yearTag year ++ padLeft 5 n)) = padLeft 4 n := by
  have htl : (yearTag year).length = 9 := by simp [yearTag, hy]
  show (((yearTag year ++ padLeft 5 n)).drop 10).take 5 = _
  rw [padLeft_five_eq_cons n hn]
  have h10 : 10 = (yearTag year).length + 1 := by omega
  rw [h10, List.drop_append]
  show (List.drop 1 ('0' :: padLeft 4 n)).take 5 = padLeft 4 n
  rw [List.drop_succ_cons, List.drop_zero]
  exact List.take_of_length_le (by
    rw [padLeft_length 4 n (natToDigits_length_le 3 n (by norm_num; omega))]
    omega)

/-- The trailing five characters of a standard number parse back to its
sequence value. -/
theorem lastFive_mk (year n : Nat) (hy : (natToDigits year).length = 4)
    (hn : n < 10000) :
    parseDigits (lastFive (String.mk (yearTag year ++ padLeft 5 n)).toList) = n := by
  have htl : (yearTag year).length = 9 := by simp [yearTag, hy]
  have hp5 : (padLeft 5 n).length = 5 :=
    padLeft_length 5 n (by
      have := natToDigits_length_le 3 n (by norm_num; omega)
      omega)
  show parseDigits ((yearTag year ++ padLeft 5 n).drop
    ((yearTag year ++ padLeft 5 n).length - 5)) = n
  have hlen : (yearTag year ++ padLeft 5 n).length - 5 = (yearTag year).length := by
    rw [List.length_append]
    omega
  rw [hlen, List.drop_left, parseDigits_padLeft]

/-- On a store of standard numbers for the year, the code's `$substr`
candidates are the width-4 paddings and the spec's trailing-segment
values are the sequence numbers themselves. -/
theorem candidates_vals_eq (year : Nat) (hy : (natToDigits year).length = 4) :
    ∀ (docs : List Document) (ns : List Nat),
      docs.map Document.document_number =
        ns.map (fun n => String.mk (yearTag year ++ padLeft 5 n)) →
      (∀ n ∈ ns, n < 10000) →
      ((docs.filter (fun d => listStartsWith (yearTag year) d.document_number.toList)).map
          (fun d => substrTenFive d.document_number) = ns.map (padLeft 4)) ∧
      ((docs.filter (fun d => listStartsWith (yearTag year) d.document_number.toList)).map
          (fun d => parseDigits (lastFive d.document_number.toList)) = ns) := by
  intro docs
  induction docs with
  | nil =>
    intro ns hmap _
    have hnil : ns = [] := by
      cases ns with
      | nil => rfl
      | cons n rest => simp at hmap
    subst hnil
    simp
  | cons d ds ih =>
    intro ns hmap hns
    cases ns with
    | nil => simp at hmap
    | cons n rest =>
      simp only [List.map_cons, List.cons.injEq] at hmap
      obtain ⟨hd, hrest⟩ := hmap
      have hn : n < 10000 := hns n (List.mem_cons_self n rest)
      have hstart : listStartsWith (yearTag year) d.document_number.toList = true := by
        rw [hd]
        exact listStartsWith_append _ _
      have hsub : substrTenFive d.document_number = padLeft 4 n := by
        rw [hd]
        exact substrTenFive_mk year n hy hn
      have hlast : parseDigits (lastFive d.document_number.toList) = n := by
        rw [hd]
        exact lastFive_mk year n hy hn
      have hih := ih rest hrest (fun m hm => hns m (List.mem_cons_of_mem n hm))
      refine ⟨?_, ?_⟩
      · rw [List.filter_cons, if_pos hstart, List.map_cons, hsub, hih.1, List.map_cons]
      · rw [List.filter_cons, if_pos hstart, List.map_cons, hlast, hih.2]

/-- A document with a five-digit sequence value in the store (sequence
12345). -/
def docBig : Document :=
  { doc0 with id := 11, document_number := "DOC-2025-12345" }

/-- C4 counterexample: with `DOC-2025-12345` in the store, the code
allocates `DOC-2025-02346` — `$substr(number, 10, 5)` reads only the last
four digits of the five-digit sequence — while the claim's formula
(parse the trailing 5-digit segment, max, plus one) yields
`DOC-2025-12346`. -/
theorem claim_C4_cex :
    generate_document_number 2025 [docBig] = "DOC-2025-02346" ∧
    spec_document_number 2025 [docBig] = "DOC-2025-12346" ∧
    generate_document_number 2025 [docBig] ≠ spec_document_number 2025 [docBig] := by
  decide

/-- C4 amended: the allocator parses the substring at byte offset 10 of
length 5 — for standard 14-character numbers, the last four digits of the
sequence — takes the greatest candidate in string order, adds one and
zero-pads to five digits. Whenever every stored number of the year is a
standard `DOC-<4-digit year>-<5 digits>` with sequence below 10000, this
coincides with the claim's trailing-5-digit formula, and the allocated
number is `DOC-<year>-<pad5 (max + 1)>` (`00001` on an empty year). -/
theorem claim_C4_amended (year : Nat) (docs : List Document) (ns : List Nat)
    (hy : (natToDigits year).length = 4)
    (hmap : docs.map Document.document_number =
      ns.map (fun n => String.mk (yearTag year ++ padLeft 5 n)))
    (hns : ∀ n ∈ ns, n < 10000) :
    generate_document_number year docs = spec_document_number year docs ∧
    generate_document_number year docs =
      String.mk (yearTag year ++
        padLeft 5 (match natMaxOfList ns with | some m => m + 1 | none => 1)) := by
  have hcv := candidates_vals_eq year hy docs ns hmap hns
  have hgen : generate_document_number year docs =
      String.mk (yearTag year ++
        padLeft 5 (match natMaxOfList ns with | some m => m + 1 | none => 1)) := by
    simp only [generate_document_number]
    rw [hcv.1]
    cases ns with
    | nil => rfl
    | cons n rest =>
      have hn : n < 10000 := hns n (List.mem_cons_self n rest)
      simp only [List.map_cons, lexMaxOfList]
      rw [foldl_lex_max_pad rest n hn (fun m hm => hns m (List.mem_cons_of_mem n hm)),
        parseDigits_padLeft]
      rfl
  have hspec : spec_document_number year docs =
      String.mk (yearTag year ++
        padLeft 5 (match natMaxOfList ns with | some m => m + 1 | none => 1)) := by
    simp only [spec_document_number]
    rw [hcv.2]
  exact ⟨hgen.trans hspec.symm, hgen⟩

/-- C4 witness: a store with sequences 7 and 3 for year 2025 (both below
10000): code and spec formula agree and allocate `DOC-2025-00008`. -/
theorem claim_C4_witness :
    generate_document_number 2025
        [{ doc0 with document_number := "DOC-2025-00007" },
         { doc0 with id := 12, document_number := "DOC-2025-00003" }] =
      spec_document_number 2025
        [{ doc0 with document_number := "DOC-2025-00007" },
         { doc0 with id := 12, document_number := "DOC-2025-00003" }] ∧
    generate_document_number 2025
        [{ doc0 with document_number := "DOC-2025-00007" },
         { doc0 with id := 12, document_number := "DOC-2025-00003" }] =
      String.mk (yearTag 2025 ++
        padLeft 5 (match natMaxOfList [7, 3] with | some m => m + 1 | none => 1)) :=
  claim_C4_amended 2025
    [{ doc0 with document_number := "DOC-2025-00007" },
     { doc0 with id := 12, document_number := "DOC-2025-00003" }]
    [7, 3] (by decide) (by decide) (by decide)

end Townhall
